import Mathlib

/-!
Shallow embedding of the book-update UI of this repository
(src/src/elements/modals/UpdateBookModal.tsx and the banner element).

The component holds a transient editable copy of a book record, validates it
with declarative rules (required fields, min-0 on copies), gates the submit
button on a loading flag, a changed-field check and validity, and on submit
recomputes the availability flag and sends the full record to a remote update
operation, showing a toast and navigating on success, or an error toast (from a
useEffect watching the mutation error state) and no navigation on failure.
-/

namespace UpdateBookModal

/-- The book record handed to the modal (`book` of `IBookCardProps`).
`available` is optional in the incoming record: the component writes
`book.available ?? true`, so absence is represented by `none`.
`copies` is a JavaScript number; it is modelled as a rational. -/
structure Book where
  _id : String
  title : String
  author : String
  isbn : String
  genre : String
  description : String
  copies : ℚ
  available : Option Bool
deriving DecidableEq, Repr

/-- The form state (`BookFormValues`): the seven registered fields of the
update form. `available` is always a boolean here (the default value is
`book.available ?? true`). -/
structure BookFormValues where
  title : String
  author : String
  isbn : String
  genre : String
  description : String
  copies : ℚ
  available : Bool
deriving DecidableEq, Repr

/-- `defaultValues` given to `useForm`: every field is copied from the book
record, except `available`, which is `book.available ?? true`. -/
def defaultValues (book : Book) : BookFormValues :=
  { title := book.title
    author := book.author
    isbn := book.isbn
    genre := book.genre
    description := book.description
    copies := book.copies
    available := book.available.getD true }

/-- `hasChanged`: `Object.keys(watchedValues).some(key =>
watchedValues[key] !== book[key])`.  The seven keys of the form state are
compared against the corresponding fields of the original record with strict
inequality; for `available` the watched boolean is compared against the
optional boolean of the record (in JavaScript, `b !== undefined` is true for any
boolean `b`, which the `Option` comparison reproduces). -/
def hasChanged (w : BookFormValues) (book : Book) : Bool :=
  w.title != book.title ||
  w.author != book.author ||
  w.isbn != book.isbn ||
  w.genre != book.genre ||
  w.description != book.description ||
  w.copies != book.copies ||
  some w.available != book.available

/-- Splits a character list at every occurrence of the dot character (the
decimal separator of a number-input value). -/
def splitOnDot : List Char → List (List Char)
  | [] => [[]]
  | c :: rest =>
    if c = '.' then [] :: splitOnDot rest
    else
      match splitOnDot rest with
      | [] => [[c]]
      | h :: t => (c :: h) :: t

/-- The value of a nonempty run of decimal digits; `none` when the run is
empty or holds a non-digit. -/
def decNatOfChars (l : List Char) : Option Nat :=
  if l ≠ [] ∧ l.all Char.isDigit then
    some (l.foldl (fun a c => a * 10 + (c.toNat - 48)) 0)
  else none

/-- Model of JavaScript `Number(v)` for `v` the value string of a
`type="number"` input: the empty string (a cleared or unparseable field)
converts to `0` (`Number("") === 0`); otherwise an optional leading minus sign
followed by a decimal numeral with an optional fractional part.  Strings
outside this shape convert to `0` here (a number input never exposes them as
its value). -/
def jsNumberInput (s : String) : ℚ :=
  match s.data with
  | [] => 0
  | c :: cs =>
    let neg := c = '-'
    let body := if neg then cs else c :: cs
    let v : ℚ :=
      match splitOnDot body with
      | [a] =>
        match decNatOfChars a with
        | some n => (n : ℚ)
        | none => 0
      | [a, b] =>
        match decNatOfChars a, decNatOfChars b with
        | some n, some m => (n : ℚ) + (m : ℚ) / (10 : ℚ) ^ b.length
        | _, _ => 0
      | _ => 0
    if neg then -v else v

/-- The `onChange` of the copies input: `field.onChange(Number(e.target.value))`.
The `copies` of the form state is the converted number of the input text. -/
def copiesOnChange (s : String) : ℚ := jsNumberInput s

/-- The validation rules registered on the form, mode `onChange`
(`formState.isValid`): `required` on title, author, isbn and genre (a string
fails `required` exactly when it is empty), `required` and
`min: { value: 0 }` on copies (a number value always passes `required`;
`min` fails when the value is below 0), and no rules on description. -/
def isValid (w : BookFormValues) : Bool :=
  w.title != "" &&
  w.author != "" &&
  w.isbn != "" &&
  w.genre != "" &&
  decide (0 ≤ w.copies)

/-- `disabled={isLoading || !hasChanged || !isValid}` on the submit button. -/
def submitDisabled (isLoading : Bool) (w : BookFormValues) (book : Book) : Bool :=
  isLoading || !hasChanged w book || !isValid w

/-- The payload of the update mutation: `{ id: book._id, ...formData }`. -/
structure UpdatePayload where
  id : String
  title : String
  author : String
  isbn : String
  genre : String
  description : String
  copies : ℚ
  available : Bool
deriving DecidableEq, Repr

/-- The record built by `onSubmit`: first `formData.available =
formData.copies > 0` is assigned, then the payload spreads `book._id` as `id`
together with every field of the (mutated) form data. -/
def onSubmitPayload (book : Book) (formData : BookFormValues) : UpdatePayload :=
  let formData1 := { formData with available := decide (formData.copies > 0) }
  { id := book._id
    title := formData1.title
    author := formData1.author
    isbn := formData1.isbn
    genre := formData1.genre
    description := formData1.description
    copies := formData1.copies
    available := formData1.available }

/-- `handleSubmit(onSubmit)`: react-hook-form runs the registered rules and
invokes `onSubmit` only when they all pass, so the mutation is called with the
payload exactly on a valid form state. -/
def handleSubmit (book : Book) (w : BookFormValues) : Option UpdatePayload :=
  if isValid w then some (onSubmitPayload book w) else none

/-- The success response of the update operation; `message` may be absent. -/
structure ApiResponse where
  message : Option String
deriving DecidableEq, Repr

/-- `IApiError`: the error payload carries an optional `data` object with an
optional `message` (the code reads `(error as IApiError)?.data?.message`). -/
structure ApiErrorData where
  message : Option String
deriving DecidableEq, Repr

structure IApiError where
  data : Option ApiErrorData
deriving DecidableEq, Repr

/-- JavaScript `s || d` for `s` a string-or-undefined: the only falsy string
is the empty one. -/
def jsOrElse (s : Option String) (d : String) : String :=
  match s with
  | some v => if v = "" then d else v
  | none => d

/-- The user-visible effects of one submission: toasts raised and the route
navigated to (if any). -/
structure Effects where
  successToasts : List String
  errorToasts : List String
  navigatedTo : Option String
deriving DecidableEq, Repr

/-- The effects of `onSubmit` once the mutation settles.  On resolution,
`toast.success(res.message || "Book updated successfully")` then
`navigate("/books")`.  On rejection, `unwrap()` throws before the toast and
the navigation, and the `useEffect` watching `isError`/`error` raises
`toast.error((error as IApiError)?.data?.message || "Failed to update book")`. -/
def onSubmitOutcome (result : Except IApiError ApiResponse) : Effects :=
  match result with
  | Except.ok res =>
    { successToasts := [jsOrElse res.message "Book updated successfully"]
      errorToasts := []
      navigatedTo := some "/books" }
  | Except.error e =>
    { successToasts := []
      errorToasts := [jsOrElse (e.data.bind (fun d => d.message)) "Failed to update book"]
      navigatedTo := none }

/-- The options offered by the genre `SelectContent`, in order. -/
def genreOptions : List String :=
  ["FICTION", "NON_FICTION", "SCIENCE", "HISTORY", "BIOGRAPHY", "FANTASY"]

/-- The genre values the form state can hold: the value copied from the book
record by `defaultValues`, and any value delivered by `onValueChange` of the
select, which only ever fires with one of the offered options. -/
inductive genreReachable (book : Book) : String → Prop
  | init : genreReachable book book.genre
  | select (g prev : String) (hg : g ∈ genreOptions)
      (hprev : genreReachable book prev) : genreReachable book g

/-- The mutation state of `useUpdateBookMutation` as the component sees it:
the `isLoading` flag, together with a count of the submissions started so far
(to express that no second one begins while one is in flight). -/
structure MutationState where
  isLoading : Bool
  started : Nat
deriving DecidableEq, Repr

/-- One click on the submit button: a disabled button does nothing; an enabled
one starts a submission, which sets `isLoading`. -/
def clickSubmit (s : MutationState) (w : BookFormValues) (book : Book) :
    MutationState :=
  if submitDisabled s.isLoading w book then s
  else { isLoading := true, started := s.started + 1 }

/-- A concrete book record used as input for witnesses and counterexamples. -/
def sampleBook : Book :=
  { _id := "b1"
    title := "Dune"
    author := "Herbert"
    isbn := "9780441013593"
    genre := "FICTION"
    description := "desert planet"
    copies := 3
    available := some true }

/-- The form state obtained from `sampleBook` after the user clears the copies
input: `onChange` fires with `Number("") = 0`, so the stored value is `0`. -/
def emptyCopiesForm : BookFormValues :=
  { defaultValues sampleBook with copies := copiesOnChange "" }

/-- The form state obtained from `sampleBook` after the user types `2.5` into
the copies input. -/
def halfCopiesForm : BookFormValues :=
  { defaultValues sampleBook with copies := copiesOnChange "2.5" }

/-- An error payload whose `data.message` is present but empty. -/
def emptyMessageError : IApiError :=
  { data := some { message := some "" } }

/-- `sampleBook` with the `available` flag absent. -/
def bookNoAvail : Book :=
  { sampleBook with available := none }

end UpdateBookModal

open UpdateBookModal

/-- Claim C1: For every form submission, the record passed to the update mutation
has its `available` flag equal to `copies > 0`: `onSubmit` recomputes
`available` from the submitted `copies` value, overwriting whatever value the
form previously held. -/
theorem C1_available_recomputed (book : Book) (formData : BookFormValues) :
    (onSubmitPayload book formData).available = decide (formData.copies > 0) := by
  rfl

/-- Claim C2: For every book record given to the update modal, if the user has
changed no field (every watched form value equals the corresponding field of
the original book record), then the submit control is disabled. -/
theorem C2_unchanged_disables_submit (book : Book) (w : BookFormValues)
    (isLoading : Bool)
    (ht : w.title = book.title) (ha : w.author = book.author)
    (hi : w.isbn = book.isbn) (hg : w.genre = book.genre)
    (hd : w.description = book.description) (hc : w.copies = book.copies)
    (hv : some w.available = book.available) :
    submitDisabled isLoading w book = true := by
  simp [submitDisabled, hasChanged, ht, ha, hi, hg, hd, hc, hv]

/-- Witness for C2 at a concrete input: the untouched default form state of
`sampleBook` leaves the submit control disabled. -/
theorem C2_unchanged_disables_submit_witness :
    submitDisabled false (defaultValues sampleBook) sampleBook = true :=
  C2_unchanged_disables_submit sampleBook (defaultValues sampleBook) false
    rfl rfl rfl rfl rfl rfl rfl

/-- Claim C3 fails on the code at the input where the copies field is cleared:
`Number("") = 0`, so the stored value becomes `0`, the `required` and `min-0`
rules both pass, the form stays valid, the submit control stays enabled, and
`handleSubmit` reaches the mutation with `copies = 0` — although the claim
(and the registered rule message `Copies is required`) say an empty copies
field must make the form invalid and keep the mutation unreachable. -/
theorem C3_empty_copies_field_still_submits :
    copiesOnChange "" = 0 ∧
    isValid emptyCopiesForm = true ∧
    submitDisabled false emptyCopiesForm sampleBook = false ∧
    handleSubmit sampleBook emptyCopiesForm =
      some (onSubmitPayload sampleBook emptyCopiesForm) ∧
    (onSubmitPayload sampleBook emptyCopiesForm).copies = 0 := by
  refine ⟨rfl, by decide, by decide, by decide, rfl⟩

/-- Claim C4: For every update call that resolves successfully, the UI shows a
success toast whose text is the `message` field of the response (or the
default `Book updated successfully` when that field is absent or empty) and
navigates to `/books`. -/
theorem C4_success_toast_and_navigation (res : ApiResponse) :
    (onSubmitOutcome (Except.ok res)).navigatedTo = some "/books" ∧
    (onSubmitOutcome (Except.ok res)).errorToasts = [] ∧
    (onSubmitOutcome (Except.ok res)).successToasts =
      [match res.message with
       | some m => if m = "" then "Book updated successfully" else m
       | none => "Book updated successfully"] := by
  obtain ⟨msg⟩ := res
  refine ⟨rfl, rfl, ?_⟩
  cases msg <;> rfl

/-- Counterexample to claim C5 as stated: for the error payload whose
`data.message` is present but empty, the toast text is not the message field
(the empty string) — the code falls back to the default, because the
JavaScript `||` treats the empty string as falsy. -/
theorem C5_present_empty_message_counterexample :
    emptyMessageError.data.bind (fun d => d.message) = some "" ∧
    ¬ (onSubmitOutcome (Except.error emptyMessageError)).errorToasts =
        [match emptyMessageError.data.bind (fun d => d.message) with
         | some m => m
         | none => "Failed to update book"] := by
  refine ⟨rfl, by decide⟩

/-- Claim C5, amended: for every update call that fails, the UI shows an error
toast whose text is the `message` field of the error payload when that field
is present and nonempty, and the default `Failed to update book` when it is
absent or empty; no navigation occurs and no success toast is raised. -/
theorem C5_error_toast_no_navigation (e : IApiError) :
    (onSubmitOutcome (Except.error e)).navigatedTo = none ∧
    (onSubmitOutcome (Except.error e)).successToasts = [] ∧
    (onSubmitOutcome (Except.error e)).errorToasts =
      [match e.data.bind (fun d => d.message) with
       | some m => if m = "" then "Failed to update book" else m
       | none => "Failed to update book"] := by
  refine ⟨rfl, rfl, ?_⟩
  cases h : e.data.bind (fun d => d.message) <;>
    simp [onSubmitOutcome, jsOrElse, h]

/-- Claim C6: while the update call is in flight (`isLoading` is true) the
submit control is disabled, so a click starts no second submission: the
mutation state is unchanged. -/
theorem C6_loading_blocks_second_submission (s : MutationState)
    (w : BookFormValues) (book : Book) (h : s.isLoading = true) :
    submitDisabled s.isLoading w book = true ∧ clickSubmit s w book = s := by
  refine ⟨by simp [submitDisabled, h], ?_⟩
  simp [clickSubmit, submitDisabled, h]

/-- Witness for C6 at a concrete input: with one submission in flight, a click
on the submit button leaves the mutation state untouched. -/
theorem C6_loading_blocks_second_submission_witness :
    MutationState.isLoading { isLoading := true, started := 1 } = true ∧
    (submitDisabled (MutationState.isLoading { isLoading := true, started := 1 })
        (defaultValues sampleBook) sampleBook = true ∧
      clickSubmit { isLoading := true, started := 1 }
        (defaultValues sampleBook) sampleBook =
        { isLoading := true, started := 1 }) :=
  ⟨rfl, C6_loading_blocks_second_submission
    { isLoading := true, started := 1 } (defaultValues sampleBook) sampleBook rfl⟩

/-- Claim C7: for every submission, the payload passed to the update operation
is the full record: `book._id` as `id` together with every form field, with
`available` recomputed — no field is omitted. -/
theorem C7_full_record_payload (book : Book) (formData : BookFormValues) :
    onSubmitPayload book formData =
      { id := book._id
        title := formData.title
        author := formData.author
        isbn := formData.isbn
        genre := formData.genre
        description := formData.description
        copies := formData.copies
        available := decide (formData.copies > 0) } := rfl

/-- Claim C8: for every record the form can submit, the genre is one of the
fixed six-value enumeration: provided the incoming record carries one of the
offered genres, every genre value the form can reach is one of them; the
select offers exactly these six options; and the `required` rule rejects an
empty genre on any submittable state. -/
theorem C8_genre_fixed_enumeration (book : Book) (g : String)
    (hb : book.genre ∈ genreOptions) (hr : genreReachable book g) :
    g ∈ genreOptions ∧
    genreOptions =
      ["FICTION", "NON_FICTION", "SCIENCE", "HISTORY", "BIOGRAPHY", "FANTASY"] ∧
    (∀ w : BookFormValues, isValid w = true → w.genre ≠ "") := by
  refine ⟨?_, rfl, ?_⟩
  · induction hr with
    | init => exact hb
    | select g prev hg hprev ih => exact hg
  · intro w hw hg
    rw [isValid, hg] at hw
    simp at hw

/-- Witness for C8 at a concrete input: the genre of `sampleBook` is offered,
and the initial form state is reachable. -/
theorem C8_genre_fixed_enumeration_witness :
    "FICTION" ∈ genreOptions ∧
    genreOptions =
      ["FICTION", "NON_FICTION", "SCIENCE", "HISTORY", "BIOGRAPHY", "FANTASY"] ∧
    (∀ w : BookFormValues, isValid w = true → w.genre ≠ "") :=
  C8_genre_fixed_enumeration sampleBook "FICTION" (by decide) genreReachable.init

/-- Counterexample to claim C9 as stated: typing `2.5` into the copies input
stores `Number("2.5") = 5/2`, the `required` and `min-0` rules both accept it,
so the form can submit a `copies` value that is not an integer. -/
theorem C9_fractional_copies_counterexample :
    halfCopiesForm.copies = copiesOnChange "2.5" ∧
    isValid halfCopiesForm = true ∧
    ¬ ∃ n : ℕ, (n : ℚ) = halfCopiesForm.copies := by
  have h0 : copiesOnChange "2.5" = ((2 : ℕ) : ℚ) + ((5 : ℕ) : ℚ) / (10 : ℚ) ^ (1 : ℕ) := rfl
  have h25 : copiesOnChange "2.5" = 5 / 2 := by rw [h0]; norm_num
  have hc : halfCopiesForm.copies = 5 / 2 := h25
  refine ⟨rfl, ?_, ?_⟩
  · unfold isValid
    rw [hc]
    norm_num [halfCopiesForm, defaultValues, sampleBook]
    decide
  · rintro ⟨n, hn⟩
    rw [hc] at hn
    have h2 : (n : ℚ) * 2 = 5 := by rw [hn]; norm_num
    have h3 : ((n * 2 : ℕ) : ℚ) = ((5 : ℕ) : ℚ) := by push_cast; exact h2
    have h4 : n * 2 = 5 := Nat.cast_injective h3
    omega

/-- Claim C9, amended: for every record the form can submit, `copies` is
non-negative (the `min-0` rule enforces `0 ≤ copies`), but it need not be an
integer: the `Number` conversion can deliver fractional values the rules
accept. -/
theorem C9_copies_nonneg (w : BookFormValues) (h : isValid w = true) :
    0 ≤ w.copies := by
  rw [isValid] at h
  simp only [Bool.and_eq_true, decide_eq_true_eq] at h
  exact h.2

/-- Witness for C9 at a concrete input: the default form state of `sampleBook`
is valid and its copies value is non-negative. -/
theorem C9_copies_nonneg_witness :
    0 ≤ (defaultValues sampleBook).copies :=
  C9_copies_nonneg (defaultValues sampleBook) (by decide)

/-- Claim C10: if the incoming book record has no `available` flag, the form
defaults `available` to `true`; consequently the changed-field check (strict
inequality against the original record, `available` included) already reports
a change before the user edits any field. -/
theorem C10_missing_available_defaults_true (book : Book)
    (h : book.available = none) :
    (defaultValues book).available = true ∧
    hasChanged (defaultValues book) book = true := by
  constructor
  · simp [defaultValues, h]
  · simp [hasChanged, defaultValues, h]

/-- Witness for C10 at a concrete input: `bookNoAvail` carries no `available`
flag, the form defaults it to `true`, and the changed-field check fires. -/
theorem C10_missing_available_defaults_true_witness :
    bookNoAvail.available = none ∧
    ((defaultValues bookNoAvail).available = true ∧
      hasChanged (defaultValues bookNoAvail) bookNoAvail = true) :=
  ⟨rfl, C10_missing_available_defaults_true bookNoAvail rfl⟩
